import Mathlib

/-!
# DEX-watcher: verification of the multi-source price-monitoring pipeline

Shallow embedding of the repository's four source files
(`src/main.rs`, `src/raydium.rs`, `src/orca.rs`, `src/meteora.rs`).

Modelling conventions:

* Rust `f64` is modelled by the type `FP` below: an exact rational for every
  finite float, plus the IEEE special values `+inf`, `-inf` and `NaN`.
  Arithmetic on finite operands is exact (rounding is not modelled; every
  numeric path in this program stays far below the `f64` overflow threshold,
  since all inputs are `u64`/`u128` fields divided by positive powers of ten),
  while the IEEE special-value rules for division by zero and for operations
  involving infinities and NaN are modelled faithfully, because the
  change-percent path can genuinely divide by a cached `0.0`.
  Only the positive zero is modelled: every zero arising in this program is
  `+0` (integer casts and exact divisions of non-negative quantities).
* Rust machine integers (`u64`, `u128`, `u16`) become `Nat`; `i32` becomes
  `Int`.  No arithmetic in the embedded code wraps, so no `% 2^w` is needed:
  the integers are only cast to `f64` or compared.
* The RPC transport and the third-party binary decoders are capabilities
  outside the core (spec §2); they enter the embedding as explicit inputs:
  a per-tick fetch outcome, a decoder function parameter, a balance-lookup
  function parameter, and a publish-success flag for the broadcast send.
-/

/-- Model of an `f64` value: an exact rational for finite values, plus the
three IEEE special values. -/
inductive FP where
  | finite (q : ℚ)
  | pinf
  | ninf
  | nan
deriving DecidableEq, Repr

/-- `true` exactly on finite floats (neither infinite nor NaN). -/
def FP.isFinite : FP → Bool
  | .finite _ => true
  | _ => false

/-- IEEE `f64` addition (exact on finite operands). -/
def fpAdd : FP → FP → FP
  | .nan, _ => .nan
  | _, .nan => .nan
  | .pinf, .ninf => .nan
  | .ninf, .pinf => .nan
  | .pinf, _ => .pinf
  | _, .pinf => .pinf
  | .ninf, _ => .ninf
  | _, .ninf => .ninf
  | .finite a, .finite b => .finite (a + b)

/-- IEEE `f64` subtraction (exact on finite operands). -/
def fpSub : FP → FP → FP
  | .nan, _ => .nan
  | _, .nan => .nan
  | .pinf, .pinf => .nan
  | .ninf, .ninf => .nan
  | .pinf, _ => .pinf
  | _, .pinf => .ninf
  | .ninf, _ => .ninf
  | _, .ninf => .pinf
  | .finite a, .finite b => .finite (a - b)

/-- IEEE `f64` multiplication (exact on finite operands). -/
def fpMul : FP → FP → FP
  | .nan, _ => .nan
  | _, .nan => .nan
  | .pinf, .pinf => .pinf
  | .pinf, .ninf => .ninf
  | .ninf, .pinf => .ninf
  | .ninf, .ninf => .pinf
  | .pinf, .finite b => if b = 0 then .nan else if 0 < b then .pinf else .ninf
  | .finite a, .pinf => if a = 0 then .nan else if 0 < a then .pinf else .ninf
  | .ninf, .finite b => if b = 0 then .nan else if 0 < b then .ninf else .pinf
  | .finite a, .ninf => if a = 0 then .nan else if 0 < a then .ninf else .pinf
  | .finite a, .finite b => .finite (a * b)

/-- IEEE `f64` division (exact on finite operands, only `+0` modelled):
`x / 0` is `+inf` for `x > 0`, `-inf` for `x < 0`, and NaN for `0 / 0`. -/
def fpDiv : FP → FP → FP
  | .nan, _ => .nan
  | _, .nan => .nan
  | .pinf, .pinf => .nan
  | .pinf, .ninf => .nan
  | .ninf, .pinf => .nan
  | .ninf, .ninf => .nan
  | .pinf, .finite b => if 0 ≤ b then .pinf else .ninf
  | .ninf, .finite b => if 0 ≤ b then .ninf else .pinf
  | .finite _, .pinf => .finite 0
  | .finite _, .ninf => .finite 0
  | .finite a, .finite b =>
      if b = 0 then (if a = 0 then .nan else if 0 < a then .pinf else .ninf)
      else .finite (a / b)

/-- Rust `f64::powi` (integer exponent, exact in this model): IEEE `pow`
rules for the special bases, `x ^ 0 = 1` for every `x`; a nonzero finite
base gives the exact rational power (`zpow` handles negative exponents). -/
def fpPowi : FP → ℤ → FP
  | .nan, n => if n = 0 then .finite 1 else .nan
  | .pinf, n => if n = 0 then .finite 1 else if 0 < n then .pinf else .finite 0
  | .ninf, n =>
      if n = 0 then .finite 1
      else if 0 < n then (if n % 2 = 0 then .pinf else .ninf)
      else .finite 0
  | .finite a, n =>
      if a = 0 then (if n = 0 then .finite 1 else if 0 < n then .finite 0 else .pinf)
      else .finite (a ^ n)

/-- IEEE `f64` strict comparison `<`: false whenever either side is NaN. -/
def fpLt : FP → FP → Bool
  | .nan, _ => false
  | _, .nan => false
  | .ninf, .ninf => false
  | .ninf, _ => true
  | _, .ninf => false
  | .pinf, _ => false
  | .finite _, .pinf => true
  | .finite a, .finite b => decide (a < b)

/-!
## Data model (`src/raydium.rs` lines 12-37, shared by all venues)
-/

/-- `AmmInfo` (raydium.rs 12-20): structured pool state after decoding.
`base_reserve`/`quote_reserve` are raw smallest-unit `u64` amounts. -/
structure AmmInfo where
  pool_id : String
  base_mint : String
  quote_mint : String
  base_reserve : ℕ
  quote_reserve : ℕ
  price : FP
deriving DecidableEq, Repr

/-- `PriceUpdate` (raydium.rs 22-31): the normalized event every venue
publishes to the broadcast channel. -/
structure PriceUpdate where
  symbol : String
  price : FP
  change_percent : FP
  timestamp : ℕ
  source : String
  base_reserve : ℕ
  quote_reserve : ℕ
deriving DecidableEq, Repr

/-!
## Price derivation (pure functions of the three venues)
-/

namespace RaydiumMonitor

/-- `RaydiumMonitor::new` (raydium.rs 39-55): only the mutable state matters
for the embedding — `price_cache: None` (the RPC client and the fixed pool
address are capabilities/constants). -/
def new : Option FP := none

/-- `RaydiumMonitor::calculate_price` (raydium.rs 152-163): reserve-ratio
price.  Zero base reserve short-circuits to `0.0`; otherwise
`(quote / 1e6) / (base / 1e9)` in `f64`. -/
def calculate_price (amm_info : AmmInfo) : FP :=
  if amm_info.base_reserve = 0 then .finite 0
  else
    let sol_amount := fpDiv (.finite (amm_info.base_reserve : ℚ)) (.finite (10 ^ 9))
    let usdc_amount := fpDiv (.finite (amm_info.quote_reserve : ℚ)) (.finite (10 ^ 6))
    fpDiv usdc_amount sol_amount

/-- `RaydiumMonitor::calculate_change_percent` (raydium.rs 166-173):
`((current - cached) / cached) * 100`, or `0.0` with an empty cache. -/
def calculate_change_percent (price_cache : Option FP) (current_price : FP) : FP :=
  match price_cache with
  | some cached_price => fpMul (fpDiv (fpSub current_price cached_price) cached_price) (.finite 100)
  | none => .finite 0

end RaydiumMonitor

/-- `whirlpool_price_from_sqrt_price` (orca.rs 106-114):
`(sqrt_price / 2^64)^2 * 10^(token_b_decimals - token_a_decimals)`.
Every intermediate `f64` here is finite (a `u128` cast, a division by the
positive constant `2^64`, `powi(2)`, and a power of ten), so the body is
rendered directly as its exact rational value. -/
def whirlpool_price_from_sqrt_price (sqrt_price : ℕ) (token_a_decimals token_b_decimals : ℕ) : FP :=
  let sqrt_price_f64 : ℚ := (sqrt_price : ℚ)
  let q64 : ℚ := 2 ^ 64
  let price_raw : ℚ := (sqrt_price_f64 / q64) ^ 2
  let decimal_adjustment : ℚ := (10 : ℚ) ^ ((token_b_decimals : ℤ) - (token_a_decimals : ℤ))
  .finite (price_raw * decimal_adjustment)

namespace OrcaMonitor

/-- `OrcaMonitor::new` (orca.rs 17-28): the mutable state is
`price_cache: None`. -/
def new : Option FP := none

/-- The price computed by `OrcaMonitor::fetch_whirlpool_data`
(orca.rs 95-99): the call site passes `token_a_decimals = 6` and
`token_b_decimals = 9` (its comments label 6 as "SOL decimals" and 9 as
"USDC decimals", though on mainnet SOL has 9 decimals and USDC has 6). -/
def derived_price (sqrt_price : ℕ) : FP :=
  whirlpool_price_from_sqrt_price sqrt_price 6 9

end OrcaMonitor

namespace MeteoraMonitor

/-- `MeteoraMonitor::new` (meteora.rs 18-29): the mutable state is
`price_cache: None`. -/
def new : Option FP := none

/-- `MeteoraMonitor::calculate_price_from_active_bin` (meteora.rs 120-130):
`bin_step` is a `u16` in basis points, `active_id` a signed `i32`;
`(1 + bin_step/10000).powi(active_id) * 1000.0`. -/
def calculate_price_from_active_bin (active_id : ℤ) (bin_step : ℕ) : FP :=
  let bin_step_decimal : ℚ := (bin_step : ℚ) / 10000
  let base_multiplier : ℚ := 1 + bin_step_decimal
  let active_bin_price := fpPowi (.finite base_multiplier) active_id
  fpMul active_bin_price (.finite 1000)

end MeteoraMonitor

/-!
## Monitor loop bodies

Each venue's `start_monitoring` is an infinite `loop` whose body matches a
per-tick fetch outcome.  One iteration is embedded as a function of the
mutable state (`price_cache`), the tick's environment inputs (fetch outcome,
clock reading, whether `tx.send` finds a receiver), returning a
`LoopOutcome`: either the loop continues with a new cache, possibly a
published event and console log lines, or the enclosing function returns.
None of the three loop bodies contains a `return`/`break`/`?`, so only the
`next` constructor is ever produced — the `returnOk`/`returnErr`
constructors exist so that "the loop never returns" is a statement, not a
typing accident.
-/

/-- Result of one iteration of a monitor loop. -/
inductive LoopOutcome where
  | next (price_cache : Option FP) (published : Option PriceUpdate) (log : List String)
  | returnOk
  | returnErr (msg : String)
deriving DecidableEq, Repr

/-- `true` iff the iteration falls through to the next tick. -/
def LoopOutcome.isNext : LoopOutcome → Bool
  | .next _ _ _ => true
  | _ => false

/-- The cache the loop continues with (`none` if the loop returned). -/
def LoopOutcome.cacheAfter : LoopOutcome → Option (Option FP)
  | .next c _ _ => some c
  | _ => none

/-- The event handed to `tx.send` this iteration, if any. -/
def LoopOutcome.publishedEvent : LoopOutcome → Option PriceUpdate
  | .next _ p _ => p
  | _ => none

/-- The console lines printed this iteration. -/
def LoopOutcome.logLines : LoopOutcome → List String
  | .next _ _ l => l
  | _ => []

/-- One iteration of `RaydiumMonitor::start_monitoring` (raydium.rs 64-93).
`fetch` is the outcome of `fetch_pool_data`, `now` the system clock in
seconds, `sendOk` whether the broadcast send found a receiver.  The send
result is discarded with `let _ =` (line 83): no log line depends on
`sendOk`, and the cache is overwritten unconditionally (line 84). -/
def raydiumLoopBody (price_cache : Option FP) (fetch : Except String AmmInfo)
    (now : ℕ) (sendOk : Bool) : LoopOutcome :=
  match fetch with
  | .ok amm_info =>
      let current_price := RaydiumMonitor.calculate_price amm_info
      let price_update : PriceUpdate :=
        { symbol := "SOL/USDC"
          price := current_price
          change_percent := RaydiumMonitor.calculate_change_percent price_cache current_price
          timestamp := now
          source := "Raydium"
          base_reserve := amm_info.base_reserve
          quote_reserve := amm_info.quote_reserve }
      let _ := sendOk
      .next (some current_price) (some price_update) []
  | .error e => .next price_cache none ["Raydium fetch error: " ++ e]

/-- One iteration of `OrcaMonitor::start_monitoring` (orca.rs 33-67).
`fetch` is the outcome of `fetch_whirlpool_data`:
`(current_price, base_reserve, quote_reserve)`.  A failed send is logged
(line 58) and the cache is overwritten either way (line 61). -/
def orcaLoopBody (price_cache : Option FP) (fetch : Except String (FP × ℕ × ℕ))
    (now : ℕ) (sendOk : Bool) : LoopOutcome :=
  match fetch with
  | .ok (current_price, base_reserve, quote_reserve) =>
      let change_percent :=
        match price_cache with
        | some cached => fpMul (fpDiv (fpSub current_price cached) cached) (.finite 100)
        | none => .finite 0
      let update : PriceUpdate :=
        { symbol := "SOL/USDC"
          source := "Orca"
          price := current_price
          change_percent := change_percent
          timestamp := now
          base_reserve := base_reserve
          quote_reserve := quote_reserve }
      .next (some current_price) (some update)
        (if sendOk then [] else ["No receivers for Orca price updates"])
  | .error e => .next price_cache none ["Failed to fetch Orca price: " ++ e]

/-- One iteration of `MeteoraMonitor::start_monitoring` (meteora.rs 34-68);
same shape as Orca's loop with Meteora's strings. -/
def meteoraLoopBody (price_cache : Option FP) (fetch : Except String (FP × ℕ × ℕ))
    (now : ℕ) (sendOk : Bool) : LoopOutcome :=
  match fetch with
  | .ok (current_price, base_reserve, quote_reserve) =>
      let change_percent :=
        match price_cache with
        | some cached => fpMul (fpDiv (fpSub current_price cached) cached) (.finite 100)
        | none => .finite 0
      let update : PriceUpdate :=
        { symbol := "SOL/USDC"
          source := "Meteora"
          price := current_price
          change_percent := change_percent
          timestamp := now
          base_reserve := base_reserve
          quote_reserve := quote_reserve }
      .next (some current_price) (some update)
        (if sendOk then [] else ["No receivers for Meteora price updates"])
  | .error e => .next price_cache none ["Failed to fetch Meteora DLMM price: " ++ e]

/-- Environment inputs of one Raydium tick. -/
structure RayTick where
  fetch : Except String AmmInfo
  now : ℕ
  sendOk : Bool

/-- Environment inputs of one Orca/Meteora tick. -/
structure PoolTick where
  fetch : Except String (FP × ℕ × ℕ)
  now : ℕ
  sendOk : Bool

/-- Run the Raydium loop over a finite prefix of ticks, collecting the final
cache and the events handed to `tx.send` in order.  (If an iteration
returned — which none does — the run would stop there.) -/
def runRaydium : Option FP → List RayTick → Option FP × List PriceUpdate
  | c, [] => (c, [])
  | c, t :: ts =>
    match raydiumLoopBody c t.fetch t.now t.sendOk with
    | .next c' pub _ =>
        let r := runRaydium c' ts
        (r.1, pub.toList ++ r.2)
    | .returnOk => (c, [])
    | .returnErr _ => (c, [])

/-- Run the Orca loop over a finite prefix of ticks. -/
def runOrca : Option FP → List PoolTick → Option FP × List PriceUpdate
  | c, [] => (c, [])
  | c, t :: ts =>
    match orcaLoopBody c t.fetch t.now t.sendOk with
    | .next c' pub _ =>
        let r := runOrca c' ts
        (r.1, pub.toList ++ r.2)
    | .returnOk => (c, [])
    | .returnErr _ => (c, [])

/-!
## Supervised restart loop (`src/main.rs` lines 21-38)

The Raydium task body is
`let mut raydium = RaydiumMonitor::new(); loop { match raydium.start_monitoring(tx.clone()).await { .. } }` —
the monitor is constructed once, *before* the restart loop, and every
re-invocation of `start_monitoring` after a return receives the same
`raydium` value, hence the same `price_cache` it had when the previous run
returned.  (The Orca and Meteora tasks at lines 41-58 and 61-78 have the
identical shape.)
-/

/-- The monitor state the supervised restart loop passes to the next
`start_monitoring` invocation, as a function of the state at the moment the
previous invocation returned: `RaydiumMonitor::new()` is called only once,
outside the loop (main.rs line 24), so the state is passed through
unchanged. -/
def raydiumSupervisorResume (price_cache_at_return : Option FP) : Option FP :=
  price_cache_at_return

/-!
## Decoding stage (`parse_raydium_pool_data`, `fetch_dlmm_data`)

The third-party Carbon decoders and the RPC balance lookups are black-box
capabilities (spec §2) and appear as function parameters.  Account data is a
byte list.
-/

/-- The fields of the Carbon `AmmInfo` record that the Raydium parser reads
(raydium.rs 129-135): two vault addresses and two mint addresses. -/
structure RayDecoded where
  token_coin : String
  token_pc : String
  coin_mint : String
  pc_mint : String

/-- The fields of the Carbon `LbPair` record that the Meteora fetcher reads
(meteora.rs 86-92): two reserve addresses, the active bin id (`i32`) and the
bin step (`u16`). -/
structure LbPairRec where
  reserve_x : String
  reserve_y : String
  active_id : ℤ
  bin_step : ℕ

/-- The byte slice `&data[..64.min(data.len())]` printed as a hex preview in
both decode-failure branches (raydium.rs 144, meteora.rs 100). -/
def hexPreviewSlice (data : List ℕ) : List ℕ :=
  data.take (Nat.min 64 data.length)

/-- `RaydiumMonitor::parse_raydium_pool_data` (raydium.rs 118-149) for a pool
account with data `data`: rejects data shorter than 656 bytes before calling
the decoder; on decoder success performs the two vault-balance lookups; on
decoder failure returns an error (after logging the length and hex preview). -/
def parse_raydium_pool_data (pool_id : String) (data : List ℕ)
    (decode : List ℕ → Option RayDecoded)
    (get_token_account_balance : String → Except String ℕ) : Except String AmmInfo :=
  if data.length < 656 then .error "Invalid pool account data size"
  else
    match decode data with
    | some raydium_info => do
        let base_vault_amount ← get_token_account_balance raydium_info.token_coin
        let quote_vault_amount ← get_token_account_balance raydium_info.token_pc
        .ok { pool_id := pool_id
              base_mint := raydium_info.coin_mint
              quote_mint := raydium_info.pc_mint
              base_reserve := base_vault_amount
              quote_reserve := quote_vault_amount
              price := .finite 0 }
    | none => .error "Failed to parse Raydium AMM data"

/-- `MeteoraMonitor::fetch_dlmm_data` (meteora.rs 71-105), after the account
fetch succeeded with data `data`: rejects data shorter than 100 bytes before
calling the decoder; on success returns
`(calculate_price_from_active_bin, base_reserve, quote_reserve)`. -/
def fetch_dlmm_data (data : List ℕ)
    (decode : List ℕ → Option LbPairRec)
    (get_token_account_balance : String → Except String ℕ) : Except String (FP × ℕ × ℕ) :=
  if data.length < 100 then .error "Invalid DLMM account data size"
  else
    match decode data with
    | some lb_pair => do
        let base_reserve ← get_token_account_balance lb_pair.reserve_x
        let quote_reserve ← get_token_account_balance lb_pair.reserve_y
        let price := MeteoraMonitor.calculate_price_from_active_bin lb_pair.active_id lb_pair.bin_step
        .ok (price, base_reserve, quote_reserve)
    | none => .error "Failed to parse Meteora DLMM data"

/-!
## Spec-side formulas (for refinement comparisons)

These two definitions follow the *specification's words*, to be compared
with the embedded code above; they are not translations of the source.
-/

/-- Spec §4.1, square-root fixed-point formula, in the spec's own variables:
`price = (sqrt_price / 2^64)^2 * 10^(quote_decimals - base_decimals)`. -/
def specSqrtPrice (sqrt_price : ℕ) (base_decimals quote_decimals : ℕ) : ℚ :=
  ((sqrt_price : ℚ) / 2 ^ 64) ^ 2 * (10 : ℚ) ^ ((quote_decimals : ℤ) - (base_decimals : ℤ))

/-- Spec §4.1, exponential bin-step formula, in the spec's own variables:
`multiplier = 1 + bin_step/10000`; `price = multiplier^active_id * scale_constant`
with `scale_constant = 1000`. -/
def specBinStepPrice (active_id : ℤ) (bin_step : ℕ) : ℚ :=
  (1 + (bin_step : ℚ) / 10000) ^ active_id * 1000

/-!
## Sample inputs and helper lemmas
-/

/-- A decoded pool state with zero base reserve (an emptied vault). -/
def sampleAmmZero : AmmInfo :=
  { pool_id := "58oQ", base_mint := "So11", quote_mint := "EPjF"
    base_reserve := 0, quote_reserve := 5000000, price := .finite 0 }

/-- A decoded pool state with 1 SOL backing 150 USDC (price 150). -/
def sampleAmm : AmmInfo :=
  { pool_id := "58oQ", base_mint := "So11", quote_mint := "EPjF"
    base_reserve := 10 ^ 9, quote_reserve := 150 * 10 ^ 6, price := .finite 0 }

lemma fpPowi_finite_of_ne (a : ℚ) (ha : a ≠ 0) (n : ℤ) :
    fpPowi (.finite a) n = .finite (a ^ n) := by
  simp [fpPowi, ha]

/-- The Meteora bin-step derivation always lands on the exact rational value
of the spec formula: its base `1 + bin_step/10000` is at least `1`, hence
nonzero, so `powi` never hits a special-value branch. -/
lemma calculate_price_from_active_bin_eq (active_id : ℤ) (bin_step : ℕ) :
    MeteoraMonitor.calculate_price_from_active_bin active_id bin_step
      = .finite (specBinStepPrice active_id bin_step) := by
  have hpos : (0 : ℚ) < 1 + (bin_step : ℚ) / 10000 := by positivity
  have hne : (1 : ℚ) + (bin_step : ℚ) / 10000 ≠ 0 := ne_of_gt hpos
  simp [MeteoraMonitor.calculate_price_from_active_bin, specBinStepPrice,
    fpPowi_finite_of_ne _ hne, fpMul]

/-- Raydium's reserve-ratio price with a nonzero base reserve is the exact
rational ratio. -/
lemma calculate_price_of_base_ne (amm : AmmInfo) (h : amm.base_reserve ≠ 0) :
    RaydiumMonitor.calculate_price amm
      = .finite (((amm.quote_reserve : ℚ) / 10 ^ 6) / ((amm.base_reserve : ℚ) / 10 ^ 9)) := by
  have h9 : ((10 : ℚ) ^ 9) ≠ 0 := by norm_num
  have h6 : ((10 : ℚ) ^ 6) ≠ 0 := by norm_num
  have hb : ((amm.base_reserve : ℚ) / 10 ^ 9) ≠ 0 := by
    have : (amm.base_reserve : ℚ) ≠ 0 := Nat.cast_ne_zero.mpr h
    positivity
  simp only [RaydiumMonitor.calculate_price, if_neg h, fpDiv, if_neg h9, if_neg h6, if_neg hb]

/-!
## Claims
-/

/-- C1 counterexample: at `sqrt_price = 2^64` the Orca monitor's derived
price is `1000`, not the `10^(quote_decimals - base_decimals) = 10^(6-9)`
adjusted value `1/1000` the claim's formula gives with base (SOL) decimals 9
and quote (USDC) decimals 6. -/
theorem orca_price_decimal_direction_counterexample :
    OrcaMonitor.derived_price (2 ^ 64) = .finite 1000
    ∧ specSqrtPrice (2 ^ 64) 9 6 = 1 / 1000
    ∧ OrcaMonitor.derived_price (2 ^ 64) ≠ .finite (specSqrtPrice (2 ^ 64) 9 6) := by
  have h1 : OrcaMonitor.derived_price (2 ^ 64)
      = .finite ((((2 ^ 64 : ℕ) : ℚ) / 2 ^ 64) ^ 2 * (10 : ℚ) ^ ((9 : ℤ) - (6 : ℤ))) := rfl
  have h2 : (((2 ^ 64 : ℕ) : ℚ) / 2 ^ 64) ^ 2 * (10 : ℚ) ^ ((9 : ℤ) - (6 : ℤ)) = 1000 := by
    push_cast
    norm_num
  have h3 : specSqrtPrice (2 ^ 64) 9 6 = 1 / 1000 := by
    unfold specSqrtPrice
    push_cast
    norm_num
  refine ⟨by rw [h1, h2], h3, ?_⟩
  rw [h1, h2, h3]
  intro hcontra
  exact absurd (FP.finite.inj hcontra) (by norm_num)

/-- C1 (amended): the Orca monitor's derived price is
`(sqrt_price / 2^64)^2 * 10^(base_decimals - quote_decimals)` — the spec
formula with the decimal roles swapped (the call site passes
`token_a_decimals = 6`, `token_b_decimals = 9`, giving exponent `9 - 6`);
and `sqrt_price = 2^64` with equal decimals yields price `1.0` exactly. -/
theorem orca_derived_price_formula (s : ℕ) :
    OrcaMonitor.derived_price s = .finite (specSqrtPrice s 6 9)
    ∧ ∀ d : ℕ, whirlpool_price_from_sqrt_price (2 ^ 64) d d = .finite 1 := by
  constructor
  · rfl
  · intro d
    have h : ((2 : ℚ) ^ 64) ≠ 0 := by positivity
    show FP.finite ((((2 ^ 64 : ℕ) : ℚ) / 2 ^ 64) ^ 2 * (10 : ℚ) ^ ((d : ℤ) - (d : ℤ)))
      = FP.finite 1
    push_cast
    norm_num

/-- C3: the reserve-ratio derivation is total and always finite: with
`base_reserve = 0` it returns exactly `0.0`; with `base_reserve ≠ 0` the
divisor `base_reserve / 10^9` is nonzero (the zero-divisor branch of the
division is unreachable) and the result is the exact finite ratio. -/
theorem calculate_price_zero_guard (amm : AmmInfo) :
    (RaydiumMonitor.calculate_price amm).isFinite = true
    ∧ (amm.base_reserve = 0 → RaydiumMonitor.calculate_price amm = .finite 0)
    ∧ (amm.base_reserve ≠ 0 →
        ((amm.base_reserve : ℚ) / 10 ^ 9 ≠ 0)
        ∧ RaydiumMonitor.calculate_price amm
            = .finite (((amm.quote_reserve : ℚ) / 10 ^ 6) / ((amm.base_reserve : ℚ) / 10 ^ 9))) := by
  by_cases h : amm.base_reserve = 0
  · simp [RaydiumMonitor.calculate_price, h, FP.isFinite]
  · have hb : ((amm.base_reserve : ℚ) / 10 ^ 9) ≠ 0 := by
      have hcast : (amm.base_reserve : ℚ) ≠ 0 := Nat.cast_ne_zero.mpr h
      positivity
    refine ⟨?_, fun h0 => absurd h0 h, fun _ => ⟨hb, calculate_price_of_base_ne amm h⟩⟩
    rw [calculate_price_of_base_ne amm h]
    rfl

/-- Witness for C3 at concrete inputs: an emptied vault yields `0.0`, and a
pool with 1 SOL / 150 USDC yields the exact ratio. -/
theorem calculate_price_zero_guard_witness :
    RaydiumMonitor.calculate_price sampleAmmZero = .finite 0
    ∧ RaydiumMonitor.calculate_price sampleAmm
        = .finite (((sampleAmm.quote_reserve : ℚ) / 10 ^ 6) / ((sampleAmm.base_reserve : ℚ) / 10 ^ 9)) :=
  ⟨(calculate_price_zero_guard sampleAmmZero).2.1 rfl,
   ((calculate_price_zero_guard sampleAmm).2.2 (by decide)).2⟩

/-- C4: the Meteora bin-step derivation returns exactly the spec formula
`(1 + bin_step/10000)^active_id * 1000` (scale applied after
exponentiation), and `bin_step = 0` yields exactly the scale constant
`1000.0` for every `active_id`. -/
theorem bin_step_price_formula (active_id : ℤ) (bin_step : ℕ) :
    MeteoraMonitor.calculate_price_from_active_bin active_id bin_step
      = .finite (specBinStepPrice active_id bin_step)
    ∧ MeteoraMonitor.calculate_price_from_active_bin active_id 0 = .finite 1000 := by
  refine ⟨calculate_price_from_active_bin_eq _ _, ?_⟩
  rw [calculate_price_from_active_bin_eq]
  simp [specBinStepPrice]

/-- C5: for a fixed positive `bin_step`, the bin-step price is strictly
increasing in `active_id` (in the IEEE order `fpLt`, both sides being
finite). -/
theorem bin_step_price_strict_mono (bin_step : ℕ) (a₁ a₂ : ℤ)
    (hs : 0 < bin_step) (ha : a₁ < a₂) :
    fpLt (MeteoraMonitor.calculate_price_from_active_bin a₁ bin_step)
      (MeteoraMonitor.calculate_price_from_active_bin a₂ bin_step) = true := by
  rw [calculate_price_from_active_bin_eq, calculate_price_from_active_bin_eq]
  have hx : (1 : ℚ) < 1 + (bin_step : ℚ) / 10000 := by
    have h0 : (0 : ℚ) < (bin_step : ℚ) := by exact_mod_cast hs
    have h1 : (0 : ℚ) < (bin_step : ℚ) / 10000 := by positivity
    linarith
  have hlt : (1 + (bin_step : ℚ) / 10000) ^ a₁ < (1 + (bin_step : ℚ) / 10000) ^ a₂ :=
    zpow_lt_zpow_right₀ hx ha
  have hmul : specBinStepPrice a₁ bin_step < specBinStepPrice a₂ bin_step := by
    unfold specBinStepPrice
    exact mul_lt_mul_of_pos_right hlt (by norm_num)
  simp [fpLt, hmul]

/-- Witness for C5: bin step 10 basis points, bins 0 < 1. -/
theorem bin_step_price_strict_mono_witness :
    fpLt (MeteoraMonitor.calculate_price_from_active_bin 0 10)
      (MeteoraMonitor.calculate_price_from_active_bin 1 10) = true :=
  bin_step_price_strict_mono 10 0 1 (by decide) (by decide)

lemma raydiumLoopBody_next (c : Option FP) (f : Except String AmmInfo) (n : ℕ) (s : Bool) :
    ∃ c' p l, raydiumLoopBody c f n s = .next c' p l := by
  cases f <;> exact ⟨_, _, _, rfl⟩

lemma orcaLoopBody_next (c : Option FP) (f : Except String (FP × ℕ × ℕ)) (n : ℕ) (s : Bool) :
    ∃ c' p l, orcaLoopBody c f n s = .next c' p l := by
  rcases f with e | v
  · exact ⟨_, _, _, rfl⟩
  · rcases v with ⟨p, br, qr⟩
    exact ⟨_, _, _, rfl⟩

lemma meteoraLoopBody_next (c : Option FP) (f : Except String (FP × ℕ × ℕ)) (n : ℕ) (s : Bool) :
    ∃ c' p l, meteoraLoopBody c f n s = .next c' p l := by
  rcases f with e | v
  · exact ⟨_, _, _, rfl⟩
  · rcases v with ⟨p, br, qr⟩
    exact ⟨_, _, _, rfl⟩

lemma runRaydium_skip_error (c : Option FP) (pre post : List RayTick) (e : String)
    (n : ℕ) (s : Bool) :
    runRaydium c (pre ++ { fetch := .error e, now := n, sendOk := s } :: post)
      = runRaydium c (pre ++ post) := by
  induction pre generalizing c with
  | nil => simp [runRaydium, raydiumLoopBody]
  | cons t ts ih =>
      obtain ⟨c', p, l, h⟩ := raydiumLoopBody_next c t.fetch t.now t.sendOk
      simp [runRaydium, h, ih c']

lemma runOrca_skip_error (c : Option FP) (pre post : List PoolTick) (e : String)
    (n : ℕ) (s : Bool) :
    runOrca c (pre ++ { fetch := .error e, now := n, sendOk := s } :: post)
      = runOrca c (pre ++ post) := by
  induction pre generalizing c with
  | nil => simp [runOrca, orcaLoopBody]
  | cons t ts ih =>
      obtain ⟨c', p, l, h⟩ := orcaLoopBody_next c t.fetch t.now t.sendOk
      simp [runOrca, h, ih c']

/-- C6: a tick whose fetch/decode step fails is skipped atomically: deleting
it from any run leaves both the final cache and the whole published event
sequence unchanged (no event, cache untouched, loop continues), for the
Raydium and the Orca monitor alike. -/
theorem failed_tick_skipped_atomically :
    (∀ (c : Option FP) (pre post : List RayTick) (e : String) (n : ℕ) (s : Bool),
      runRaydium c (pre ++ { fetch := .error e, now := n, sendOk := s } :: post)
        = runRaydium c (pre ++ post))
    ∧ (∀ (c : Option FP) (pre post : List PoolTick) (e : String) (n : ℕ) (s : Bool),
      runOrca c (pre ++ { fetch := .error e, now := n, sendOk := s } :: post)
        = runOrca c (pre ++ post)) :=
  ⟨runRaydium_skip_error, runOrca_skip_error⟩

/-- C8: no iteration of any monitor loop returns: every tick outcome —
including fetch/decode failures — falls through to the next tick, so
`start_monitoring` in particular never returns `Ok`. -/
theorem monitor_loop_never_returns (c : Option FP) (rf : Except String AmmInfo)
    (pf : Except String (FP × ℕ × ℕ)) (n : ℕ) (s : Bool) :
    (raydiumLoopBody c rf n s).isNext = true
    ∧ raydiumLoopBody c rf n s ≠ .returnOk
    ∧ (orcaLoopBody c pf n s).isNext = true
    ∧ orcaLoopBody c pf n s ≠ .returnOk
    ∧ (meteoraLoopBody c pf n s).isNext = true
    ∧ meteoraLoopBody c pf n s ≠ .returnOk := by
  obtain ⟨c1, p1, l1, h1⟩ := raydiumLoopBody_next c rf n s
  obtain ⟨c2, p2, l2, h2⟩ := orcaLoopBody_next c pf n s
  obtain ⟨c3, p3, l3, h3⟩ := meteoraLoopBody_next c pf n s
  simp [h1, h2, h3, LoopOutcome.isNext]

lemma calculate_price_sampleAmm : RaydiumMonitor.calculate_price sampleAmm = .finite 150 := by
  rw [calculate_price_of_base_ne sampleAmm (by norm_num [sampleAmm])]
  norm_num [sampleAmm]

/-- C2 counterexample: the supervised restart loop re-enters
`start_monitoring` with the monitor's cache intact, not empty: restarting
with `price_cache = Some 100.0` leaves it `Some 100.0` (not
`RaydiumMonitor::new`'s `None`), and the first post-restart event on a
successful tick at price `150` carries `change_percent = 50.0`, not `0.0`. -/
theorem restart_cache_not_reset_counterexample :
    raydiumSupervisorResume (some (.finite 100)) ≠ RaydiumMonitor.new
    ∧ Option.map PriceUpdate.change_percent
        ((raydiumLoopBody (raydiumSupervisorResume (some (.finite 100)))
          (.ok sampleAmm) 7 true).publishedEvent)
      = some (.finite 50)
    ∧ FP.finite 50 ≠ FP.finite 0 := by
  refine ⟨by simp [raydiumSupervisorResume, RaydiumMonitor.new], ?_, ?_⟩
  · norm_num [raydiumLoopBody, raydiumSupervisorResume, LoopOutcome.publishedEvent,
      RaydiumMonitor.calculate_change_percent, calculate_price_sampleAmm, fpSub, fpDiv, fpMul]
  · intro h
    exact absurd (FP.finite.inj h) (by norm_num)

/-- C2 (amended): a restart reuses the same monitor value, so the cache is
passed through unchanged; the first post-restart event's `change_percent` is
computed against the pre-restart cached price, and equals `0.0` exactly when
that cache was empty. -/
theorem restart_reuses_previous_price (c : Option FP) (amm : AmmInfo) (now : ℕ) (s : Bool) :
    raydiumSupervisorResume c = c
    ∧ Option.map PriceUpdate.change_percent
        ((raydiumLoopBody (raydiumSupervisorResume c) (.ok amm) now s).publishedEvent)
      = some (RaydiumMonitor.calculate_change_percent c (RaydiumMonitor.calculate_price amm))
    ∧ (c = none →
        Option.map PriceUpdate.change_percent
          ((raydiumLoopBody (raydiumSupervisorResume c) (.ok amm) now s).publishedEvent)
        = some (.finite 0)) := by
  refine ⟨rfl, by simp [raydiumLoopBody, raydiumSupervisorResume, LoopOutcome.publishedEvent], ?_⟩
  intro hc
  subst hc
  simp [raydiumLoopBody, raydiumSupervisorResume, LoopOutcome.publishedEvent,
    RaydiumMonitor.calculate_change_percent]

/-- Witness for C2 (amended): from an empty cache, the first event reports
`change_percent = 0.0`. -/
theorem restart_reuses_previous_price_witness :
    Option.map PriceUpdate.change_percent
      ((raydiumLoopBody (raydiumSupervisorResume none) (.ok sampleAmm) 0 true).publishedEvent)
      = some (.finite 0) :=
  (restart_reuses_previous_price none sampleAmm 0 true).2.2 rfl

/-- C7 counterexample: on a publish failure (`sendOk = false`) the Raydium
loop prints nothing — the send result is discarded with `let _ =` — so the
failure is ignored but *not* logged there, while Orca does log it. -/
theorem raydium_publish_failure_not_logged :
    (raydiumLoopBody (some (.finite 100)) (.ok sampleAmm) 7 false).logLines = []
    ∧ (orcaLoopBody (some (.finite 100)) (.ok (.finite 150, 1, 1)) 7 false).logLines
        = ["No receivers for Orca price updates"] :=
  ⟨rfl, rfl⟩

/-- C7 (amended): a publish failure is never treated as an error: every
venue's loop continues and overwrites `previous_price` with the newly
derived price whether or not the send succeeded; Orca and Meteora log the
failure, while Raydium silently discards the send result (no log line). -/
theorem publish_failure_ignored_cache_updated (c : Option FP) (amm : AmmInfo)
    (p : FP) (br qr : ℕ) (now : ℕ) (sOk : Bool) :
    (raydiumLoopBody c (.ok amm) now sOk).isNext = true
    ∧ (raydiumLoopBody c (.ok amm) now sOk).cacheAfter
        = some (some (RaydiumMonitor.calculate_price amm))
    ∧ (raydiumLoopBody c (.ok amm) now sOk).logLines = []
    ∧ (orcaLoopBody c (.ok (p, br, qr)) now sOk).isNext = true
    ∧ (orcaLoopBody c (.ok (p, br, qr)) now sOk).cacheAfter = some (some p)
    ∧ (orcaLoopBody c (.ok (p, br, qr)) now false).logLines
        = ["No receivers for Orca price updates"]
    ∧ (meteoraLoopBody c (.ok (p, br, qr)) now sOk).isNext = true
    ∧ (meteoraLoopBody c (.ok (p, br, qr)) now sOk).cacheAfter = some (some p)
    ∧ (meteoraLoopBody c (.ok (p, br, qr)) now false).logLines
        = ["No receivers for Meteora price updates"] :=
  ⟨rfl, rfl, rfl, rfl, rfl, rfl, rfl, rfl, rfl⟩

/-- C9: starting from the fresh monitor, a successful tick with
`base_reserve = 0` caches the price `0.0`; the next successful tick (price
`150`) then publishes `change_percent = ((150 - 0) / 0) * 100 = +inf` —
not a finite number. -/
theorem zero_price_then_nonzero_gives_infinite_change :
    List.map PriceUpdate.change_percent
      (runRaydium RaydiumMonitor.new
        [{ fetch := .ok sampleAmmZero, now := 1, sendOk := true },
         { fetch := .ok sampleAmm, now := 2, sendOk := true }]).2
      = [.finite 0, .pinf]
    ∧ FP.pinf.isFinite = false := by
  constructor
  · have h0 : RaydiumMonitor.calculate_price sampleAmmZero = .finite 0 := by
      simp [RaydiumMonitor.calculate_price, sampleAmmZero]
    norm_num [runRaydium, raydiumLoopBody, RaydiumMonitor.new, h0, calculate_price_sampleAmm,
      RaydiumMonitor.calculate_change_percent, fpSub, fpDiv, fpMul]
  · rfl

/-- C10: data shorter than 656 bytes (Raydium) resp. 100 bytes (Meteora) is
rejected with the size error before — and independently of — the decoder;
the 64-byte hex preview slice never extends past the data, and under either
minimum-length guard it is exactly 64 bytes. -/
theorem short_data_rejected_before_decoder (pid : String) (data : List ℕ)
    (d₁ d₂ : List ℕ → Option RayDecoded) (m₁ m₂ : List ℕ → Option LbPairRec)
    (g₁ g₂ : String → Except String ℕ) :
    (data.length < 656 →
      parse_raydium_pool_data pid data d₁ g₁ = .error "Invalid pool account data size"
      ∧ parse_raydium_pool_data pid data d₁ g₁ = parse_raydium_pool_data pid data d₂ g₂)
    ∧ (data.length < 100 →
      fetch_dlmm_data data m₁ g₁ = .error "Invalid DLMM account data size"
      ∧ fetch_dlmm_data data m₁ g₁ = fetch_dlmm_data data m₂ g₂)
    ∧ (hexPreviewSlice data).length ≤ data.length
    ∧ (656 ≤ data.length → (hexPreviewSlice data).length = 64)
    ∧ (100 ≤ data.length → (hexPreviewSlice data).length = 64) := by
  refine ⟨fun h => ?_, fun h => ?_, ?_, fun h => ?_, fun h => ?_⟩
  · simp [parse_raydium_pool_data, h]
  · simp [fetch_dlmm_data, h]
  · simp only [hexPreviewSlice, List.length_take]
    omega
  · have hmin : Nat.min 64 data.length = 64 := Nat.min_eq_left (by omega)
    simp only [hexPreviewSlice, hmin, List.length_take]
  · have hmin : Nat.min 64 data.length = 64 := Nat.min_eq_left (by omega)
    simp only [hexPreviewSlice, hmin, List.length_take]

/-- Witness for C10: 10 bytes of zeros are rejected by both venues whatever
the decoder or balance capability; 700 bytes give a full 64-byte preview. -/
theorem short_data_rejected_before_decoder_witness :
    parse_raydium_pool_data "58oQ" (List.replicate 10 0) (fun _ => none) (fun _ => .error "e")
      = .error "Invalid pool account data size"
    ∧ fetch_dlmm_data (List.replicate 10 0) (fun _ => none) (fun _ => .error "e")
      = .error "Invalid DLMM account data size"
    ∧ (hexPreviewSlice (List.replicate 700 0)).length = 64 :=
  ⟨((short_data_rejected_before_decoder "58oQ" (List.replicate 10 0)
      (fun _ => none) (fun _ => none) (fun _ => none) (fun _ => none)
      (fun _ => .error "e") (fun _ => .error "e")).1 (by rw [List.length_replicate]; omega)).1,
   ((short_data_rejected_before_decoder "58oQ" (List.replicate 10 0)
      (fun _ => none) (fun _ => none) (fun _ => none) (fun _ => none)
      (fun _ => .error "e") (fun _ => .error "e")).2.1 (by rw [List.length_replicate]; omega)).1,
   (short_data_rejected_before_decoder "58oQ" (List.replicate 700 0)
      (fun _ => none) (fun _ => none) (fun _ => none) (fun _ => none)
      (fun _ => .error "e") (fun _ => .error "e")).2.2.2.1 (by rw [List.length_replicate]; omega)⟩
